import Mathlib

/-!
Verification of the Ninedraft sandbox game (`app.py`) against its
natural-language specification.

The definitions below are a shallow embedding of the Python source.  Pure
numeric state (durability, health, food) is modelled with `Int`/`Rat`;
Python tuples become Lean products; Python exceptions become `Except` or an
`Option String` error field so that state mutated before a raise remains
observable.  Support modules of the repository that are not present in
`src/` (item.py, grid.py, mob.py, player.py, world.py) are modelled from the
specification; every such definition carries a doc comment starting with
`Modelled from the spec:`.
-/

namespace Ninedraft

/-- BLOCK_SIZE constant from app.py (2 ** 5). -/
def BLOCK_SIZE : ℤ := 32

/-- BEE_GRAVITY constant from app.py. -/
def BEE_GRAVITY : ℚ := 100

/-- BEE_X_SCALE constant from app.py. -/
def BEE_X_SCALE : ℚ := 5 / 2

/-- ToolItem state: `self._tool_type`, and `self._max_durability = self._durability`
set by the constructor (app.py lines 247-257).  The id string is kept as well. -/
structure ToolItem where
  id : String
  toolType : String
  durability : ℤ
  maxDurability : ℤ
deriving DecidableEq

/-- ToolItem.can_attack (app.py lines 271-276): `if self._durability == 0: return False
else: return True`. -/
def ToolItem.can_attack (t : ToolItem) : Bool :=
  if t.durability = 0 then false else true

/-- ToolItem.attack (app.py lines 278-281): `if successful == False: self._durability -= 1`. -/
def ToolItem.attack (t : ToolItem) (successful : Bool) : ToolItem :=
  if successful = false then { t with durability := t.durability - 1 } else t

/-- Items held or stored by the player, one constructor per item class that the
factory create_item (app.py lines 334-374) can return: HandItem, ToolItem,
FoodItem, BlockItem, SimpleItem. -/
inductive ItemModel where
  | hand
  | tool (t : ToolItem)
  | food (id : String) (strength : ℚ)
  | blockItem (id : String)
  | simple (id : String)
deriving DecidableEq

/-- Dispatch of can_attack.  The ToolItem case is app.py lines 271-276 and the
FoodItem case is app.py lines 304-306.  Modelled from the spec: item.py is
absent from src; for HandItem, BlockItem and SimpleItem the base class default
applies, and the hand fallback must be usable for mining, so those return true. -/
def ItemModel.can_attack : ItemModel → Bool
  | .tool t => t.can_attack
  | .food _ _ => false
  | _ => true

/-- Dispatch of attack.  The ToolItem case is app.py lines 278-281.  Modelled
from the spec: durability is exclusive to tool items, so attack on every other
item is a no-op. -/
def ItemModel.attack : ItemModel → Bool → ItemModel
  | .tool t, succ => .tool (t.attack succ)
  | i, _ => i

/-- Ninedraft.get_holding (app.py lines 834-841): the active item is the selected
hotbar stack item, or the hand item when no stack is selected; the effective
item is the active item when it can attack, else the hand item. -/
def get_holding (activeStack : Option ItemModel) : ItemModel × ItemModel :=
  let active := match activeStack with
    | some i => i
    | none => .hand
  (active, if active.can_attack then active else .hand)

/-- Effect of one Ninedraft.mine_block call (app.py lines 785-793) on the held
item: `effective_item.attack(was_attack_successful)` mutates the held item
exactly when get_holding selected it as the effective item (i.e. when it can
attack); otherwise the hand item absorbs the attack call and the held item is
untouched. -/
def mine_block_held_after (activeStack : Option ItemModel) (succ : Bool) : ItemModel :=
  let ae := get_holding activeStack
  if ae.1.can_attack then ae.1.attack succ else ae.1

/-- Iterate mine_block calls that all fail to finish the break
(was_attack_successful = False) on the same held item. -/
def mine_failures_iter : ℕ → ItemModel → ItemModel
  | 0, i => i
  | n + 1, i => mine_failures_iter n (mine_block_held_after (some i) false)

/-- Durability stored in a held item (0 for non-tools, which carry none). -/
def held_durability : ItemModel → ℤ
  | .tool t => t.durability
  | _ => 0

lemma mine_failures_iter_tool (a b : String) (md : ℤ) :
    ∀ (n : ℕ) (d : ℤ), 0 ≤ d →
      mine_failures_iter n (.tool ⟨a, b, d, md⟩) = .tool ⟨a, b, max (d - n) 0, md⟩ := by
  intro n
  induction n with
  | zero =>
    intro d hd
    simp [mine_failures_iter]
    omega
  | succ n ih =>
    intro d hd
    by_cases h0 : d = 0
    · subst h0
      have hstep : mine_block_held_after (some (.tool ⟨a, b, 0, md⟩)) false
          = .tool ⟨a, b, 0, md⟩ := by
        simp [mine_block_held_after, get_holding, ItemModel.can_attack, ToolItem.can_attack]
      rw [mine_failures_iter, hstep, ih 0 le_rfl]
      congr 1
      congr 1
      omega
    · have hstep : mine_block_held_after (some (.tool ⟨a, b, d, md⟩)) false
          = .tool ⟨a, b, d - 1, md⟩ := by
        simp [mine_block_held_after, get_holding, ItemModel.can_attack, ToolItem.can_attack,
          ItemModel.attack, ToolItem.attack, h0]
      rw [mine_failures_iter, hstep, ih (d - 1) (by omega)]
      congr 1
      congr 1
      omega

/-- C1: a mine_block call on which the block becomes mined (attack with
successful = True) leaves the tool's durability unchanged; a call that does not
finish the break while the tool still has durability decreases it by exactly 1;
and after any number of failed calls the durability is `max (d - n) 0`, in
particular never below 0. -/
theorem mine_block_durability_spec (t : ToolItem) (h : 0 ≤ t.durability) (n : ℕ) :
    mine_block_held_after (some (.tool t)) true = .tool t ∧
    (0 < t.durability →
      mine_block_held_after (some (.tool t)) false
        = .tool { t with durability := t.durability - 1 }) ∧
    held_durability (mine_failures_iter n (.tool t)) = max (t.durability - n) 0 ∧
    0 ≤ held_durability (mine_failures_iter n (.tool t)) := by
  obtain ⟨a, b, d, md⟩ := t
  refine ⟨?_, ?_, ?_, ?_⟩
  · by_cases h0 : d = 0
    · simp [mine_block_held_after, get_holding, ItemModel.can_attack, ToolItem.can_attack, h0]
    · simp [mine_block_held_after, get_holding, ItemModel.can_attack, ToolItem.can_attack, h0,
        ItemModel.attack, ToolItem.attack]
  · intro hpos
    have h0 : d ≠ 0 := by simp at hpos ⊢; omega
    simp [mine_block_held_after, get_holding, ItemModel.can_attack, ToolItem.can_attack, h0,
      ItemModel.attack, ToolItem.attack]
  · rw [mine_failures_iter_tool a b md n d h]
    rfl
  · rw [mine_failures_iter_tool a b md n d h]
    simp [held_durability]

/-- Witness for C1 at a wood pickaxe of durability 3: mining successfully keeps
durability 3, and five failed swings leave durability `max (3 - 5) 0 = 0`. -/
theorem mine_block_durability_spec_witness :
    mine_block_held_after (some (.tool ⟨"wood_pickaxe", "wood", 3, 3⟩)) true
      = .tool ⟨"wood_pickaxe", "wood", 3, 3⟩ ∧
    held_durability (mine_failures_iter 5 (.tool ⟨"wood_pickaxe", "wood", 3, 3⟩)) = 0 := by
  have h := mine_block_durability_spec ⟨"wood_pickaxe", "wood", 3, 3⟩ (by decide) 5
  refine ⟨h.1, ?_⟩
  have h3 := h.2.2.1
  simpa using h3

/-- C4: ToolItem.can_attack is false exactly when durability is zero, and
get_holding substitutes the hand item as the effective item exactly when the
active item cannot attack. -/
theorem can_attack_and_holding_spec (t : ToolItem) (i : ItemModel) :
    (t.can_attack = false ↔ t.durability = 0) ∧
    (i.can_attack = false → get_holding (some i) = (i, .hand)) ∧
    (i.can_attack = true → get_holding (some i) = (i, i)) := by
  refine ⟨?_, ?_, ?_⟩
  · unfold ToolItem.can_attack
    by_cases h0 : t.durability = 0 <;> simp [h0]
  · intro hi
    simp [get_holding, hi]
  · intro hi
    simp [get_holding, hi]

/-- Witness for C4 at a depleted tool: can_attack is false at durability 0 and
get_holding then yields the hand item as the effective item. -/
theorem can_attack_and_holding_spec_witness :
    ToolItem.can_attack ⟨"wood_axe", "wood", 0, 60⟩ = false ∧
    get_holding (some (.tool ⟨"wood_axe", "wood", 0, 60⟩))
      = (.tool ⟨"wood_axe", "wood", 0, 60⟩, .hand) := by
  refine ⟨(can_attack_and_holding_spec ⟨"wood_axe", "wood", 0, 60⟩ .hand).1.mpr rfl, ?_⟩
  exact (can_attack_and_holding_spec ⟨"wood_axe", "wood", 0, 60⟩
    (.tool ⟨"wood_axe", "wood", 0, 60⟩)).2.1 (by decide)

/-- The single-id branch of the item factory create_item (app.py lines 352-374):
hands, honey, the block_item id list, apple, stick, cooked_apple, in source
order; any other single id raises KeyError. -/
def create_item1 (itemType : String) : Except String ItemModel :=
  if itemType = "hands" then .ok .hand
  else if itemType = "honey" then .ok (.food "honey" 5)
  else if itemType ∈ ["dirt", "stone", "wood", "wood_plank", "stone_slab", "refined_stone",
      "crafting_table", "wool", "bed", "furnace"] then .ok (.blockItem itemType)
  else if itemType = "apple" then .ok (.food "apple" 2)
  else if itemType = "stick" then .ok (.simple "stick")
  else if itemType = "cooked_apple" then .ok (.food "cooked_apple" 4)
  else .error ("No item defined for " ++ itemType)

/-- The mob species that app.py defines behaviour for: Sheep and Bee. -/
inductive Species where
  | sheep
  | bee
deriving DecidableEq

/-- Mob state: the species tag selects the Python subclass, `id` is the string
passed to the constructor (returned by get_id), `health` is `self._health`. -/
structure MobM where
  species : Species
  id : String
  health : ℤ
deriving DecidableEq

/-- take_damage dispatch: Sheep.take_damage (app.py lines 115-117) is `pass`;
Bee.take_damage (app.py lines 141-147) is `self._health += damage`. -/
def MobM.take_damage (m : MobM) (damage : ℤ) : MobM :=
  match m.species with
  | .sheep => m
  | .bee => { m with health := m.health + damage }

/-- is_dead dispatch: Sheep.is_dead (app.py lines 119-121) returns True always.
Modelled from the spec: mob.py is absent from src; Bee inherits the default
species death predicate, dead when health has dropped to 0 or below. -/
def MobM.is_dead (m : MobM) : Bool :=
  match m.species with
  | .sheep => true
  | .bee => decide (m.health ≤ 0)

/-- get_drops dispatch: Sheep.get_drops (app.py lines 123-125) returns
`[('item', 'wool')]`; Bee.get_drops (app.py lines 149-151) returns None.
The luck argument is ignored by both species, as in the source. -/
def MobM.get_drops (m : MobM) (luck : ℚ) : Option (List (String × String)) :=
  match m, luck with
  | ⟨.sheep, _, _⟩, _ => some [("item", "wool")]
  | ⟨.bee, _, _⟩, _ => none

/-- The drop loop of Ninedraft.mob_drops (app.py lines 880-890): each pair whose
category is "item" becomes a DroppedItem built by create_item placed at
`(x0 - 10, y0)`; any other category raises KeyError.  Exceptions from
create_item propagate. -/
def process_mob_drops (drops : List (String × String)) (pos : ℚ × ℚ) :
    Except String (List (ItemModel × ℚ × ℚ)) :=
  match drops with
  | [] => .ok []
  | (cat, types) :: rest =>
    if cat = "item" then
      match create_item1 types with
      | .ok it =>
        match process_mob_drops rest pos with
        | .ok r => .ok ((it, pos.1 - 10, pos.2) :: r)
        | .error e => .error e
      | .error e => .error e
    else .error ("Unknown drop category " ++ cat)

instance {ε α : Type} [DecidableEq ε] [DecidableEq α] : DecidableEq (Except ε α) := fun x y =>
  match x, y with
  | .ok a, .ok b =>
    if h : a = b then .isTrue (congrArg Except.ok h)
    else .isFalse (fun hc => h (by injection hc))
  | .error a, .error b =>
    if h : a = b then .isTrue (congrArg Except.error h)
    else .isFalse (fun hc => h (by injection hc))
  | .ok _, .error _ => .isFalse (fun hc => by injection hc)
  | .error _, .ok _ => .isFalse (fun hc => by injection hc)

/-- Result of attacking a mob: the mob object after take_damage, whether
Ninedraft.mob_drops removed it from the world, and the drop-processing
outcome (the dropped items added to the world, or the raised error). -/
structure MobAttackResult where
  mob : MobM
  removedFromWorld : Bool
  dropsOutcome : Except String (List (ItemModel × ℚ × ℚ))
deriving DecidableEq

/-- Ninedraft.mob_drops (app.py lines 863-890): computes the drops and death
flag, removes the mob iff `is_sheep == False and mob_dead`, returns early when
drops is None, and otherwise processes the drop list when the mob is dead. -/
def mob_drops (m : MobM) (is_sheep : Bool) (pos : ℚ × ℚ) (luck : ℚ) : MobAttackResult :=
  { mob := m
    removedFromWorld := (!is_sheep) && m.is_dead
    dropsOutcome :=
      match m.get_drops luck with
      | none => .ok []
      | some ds => if m.is_dead then process_mob_drops ds pos else .ok [] }

/-- Ninedraft.mob_attack (app.py lines 892-905): a mob whose id is "Sheep" is
not damaged (is_sheep = True); any other mob receives take_damage(-20)
(is_sheep = False); then mob_drops runs on the (possibly damaged) mob. -/
def mob_attack (m : MobM) (pos : ℚ × ℚ) (luck : ℚ) : MobAttackResult :=
  if m.id = "Sheep" then mob_drops m true pos luck
  else mob_drops (m.take_damage (-20)) false pos luck

/-- C5: for a sheep (the invulnerable species), take_damage is a no-op for
every damage amount, is_dead always returns true, and mob_attack yields exactly
one wool item placed at `(x0 - 10, y0)` while never removing the sheep from
the world. -/
theorem sheep_invulnerable_spec (h d : ℤ) (pos : ℚ × ℚ) (luck : ℚ) :
    MobM.take_damage ⟨.sheep, "Sheep", h⟩ d = ⟨.sheep, "Sheep", h⟩ ∧
    MobM.is_dead ⟨.sheep, "Sheep", h⟩ = true ∧
    mob_attack ⟨.sheep, "Sheep", h⟩ pos luck =
      { mob := ⟨.sheep, "Sheep", h⟩
        removedFromWorld := false
        dropsOutcome := .ok [(.blockItem "wool", pos.1 - 10, pos.2)] } := by
  refine ⟨rfl, rfl, ?_⟩
  rfl

/-- One world-level attack interaction on a bee: when the bee is still present
in the world, mob_attack runs on it and it stays present unless mob_drops
removed it; once removed it is no longer reachable by further attacks. -/
def bee_attack_step (s : MobM × Bool) : MobM × Bool :=
  if s.2 then
    (let r := mob_attack s.1 (0, 0) 0
     (r.mob, !r.removedFromWorld))
  else s

/-- Iterated world-level attacks. -/
def attack_iter : ℕ → MobM × Bool → MobM × Bool
  | 0, s => s
  | n + 1, s => attack_iter n (bee_attack_step s)

lemma attack_iter_absent (m : MobM) : ∀ n : ℕ, attack_iter n (m, false) = (m, false) := by
  intro n
  induction n with
  | zero => rfl
  | succ n ih => rw [attack_iter, bee_attack_step]; simpa using ih

/-- C7: starting from a bee at full health 20 that is present in the world,
every sequence of mob_attack interactions leaves its health non-negative (the
first attack brings it to exactly 0, it is removed, and no further take_damage
call can reach it). -/
theorem bee_health_nonneg_spec (n : ℕ) :
    0 ≤ ((attack_iter n (⟨.bee, "Bee", 20⟩, true)).1.health) := by
  cases n with
  | zero => decide
  | succ n =>
    have hstep : bee_attack_step (⟨.bee, "Bee", 20⟩, true) = (⟨.bee, "Bee", 0⟩, false) := by
      decide
    rw [attack_iter, hstep, attack_iter_absent]

/-- Item construction for a mined-block drop payload, create_item(*drop_types)
(app.py lines 334-374).  Single-id payloads follow the source branch embedded
in create_item1.  The two-element tool branch depends on the
MATERIAL_TOOL_TYPES and TOOL_DURABILITIES tables of item.py, which is absent
from src; no claim exercises it, so every non-singleton payload is mapped to
the KeyError fallthrough. -/
def create_item_list : List String → Except String ItemModel
  | [t] => create_item1 t
  | l => .error ("No item defined for " ++ String.intercalate " " l)

/-- A world mutation produced by the mine_block drop loop: a DroppedItem added
to the world, or a block added to the world (create_block and the
random pixel jitter of the placement position are elided; they do not affect
the drop-category dispatch the claims concern). -/
inductive MinePlaced where
  | droppedItem (it : ItemModel)
  | placedBlock (ids : List String)
deriving DecidableEq

/-- The drop loop of Ninedraft.mine_block (app.py lines 819-832): category
"item" builds a DroppedItem via create_item, category "block" adds a block via
create_block, and any other category raises KeyError. -/
def process_mine_drops : List (String × List String) → Except String (List MinePlaced)
  | [] => .ok []
  | (cat, types) :: rest =>
    if cat = "item" then
      match create_item_list types with
      | .ok it =>
        match process_mine_drops rest with
        | .ok r => .ok (.droppedItem it :: r)
        | .error e => .error e
      | .error e => .error e
    else if cat = "block" then
      match process_mine_drops rest with
      | .ok r => .ok (.placedBlock types :: r)
      | .error e => .error e
    else .error ("Unknown drop category " ++ cat)

/-- C9: a drop payload whose category is neither "item" nor "block" (in
particular any unrecognized category) makes both the mine_block drop loop and
the mob_drops drop loop raise KeyError, surfaced to the caller. -/
theorem unknown_drop_category_spec (cat : String) (types : List String) (mtype : String)
    (rest : List (String × List String)) (mrest : List (String × String)) (pos : ℚ × ℚ)
    (h1 : cat ≠ "item") (h2 : cat ≠ "block") :
    process_mine_drops ((cat, types) :: rest) = .error ("Unknown drop category " ++ cat) ∧
    process_mob_drops ((cat, mtype) :: mrest) pos = .error ("Unknown drop category " ++ cat) := by
  constructor
  · simp [process_mine_drops, h1, h2]
  · simp [process_mob_drops, h1]

/-- Witness for C9 at the unrecognized category "banana". -/
theorem unknown_drop_category_spec_witness :
    process_mine_drops [("banana", ["dirt"])]
      = .error ("Unknown drop category " ++ "banana") ∧
    process_mob_drops [("banana", "wool")] (0, 0)
      = .error ("Unknown drop category " ++ "banana") :=
  unknown_drop_category_spec "banana" ["dirt"] "wool" [] [] (0, 0) (by decide) (by decide)

/-- Pixel to grid-cell conversion.  Modelled from the spec: world.py is absent
from src; `pixel_to_grid(point) → cell` floor-divides each pixel coordinate by
the cell expanse BLOCK_SIZE = 32.  Pixel coordinates of placed things in this
world are whole numbers, so they are modelled as integers and Python // is
Int.fdiv. -/
def xy_to_grid (x y : ℤ) : ℤ × ℤ :=
  (Int.fdiv x BLOCK_SIZE, Int.fdiv y BLOCK_SIZE)

/-- A physical thing returned by World.get_all_things, as far as Bee.step
inspects it: a Block with an id and a position, or anything that is not a
Block (dropped items, mobs, the player, walls). -/
inductive WThing where
  | blockT (id : String) (pos : ℤ × ℤ)
  | otherT
deriving DecidableEq

/-- Lexicographic order on coordinate pairs, the order Python sorted() uses on
2-tuples. -/
def lex_le (a b : ℤ × ℤ) : Prop :=
  a.1 < b.1 ∨ (a.1 = b.1 ∧ a.2 ≤ b.2)

instance : DecidableRel lex_le := fun a b => by
  unfold lex_le
  infer_instance

/-- The target selection of Bee.step (app.py lines 153-189): collect every
Block with id "honey"; keep those whose grid coordinates satisfy
`abs(g_x - bee_grid_x) <= 10 or abs(g_y - bee_grid_y) <= 10` (the source
tests the two axes with `or`); if any remain, the target is the first element
of the sorted position list, otherwise the player's position. -/
def bee_target (things : List WThing) (beePos playerPos : ℤ × ℤ) : ℤ × ℤ :=
  let bg := xy_to_grid beePos.1 beePos.2
  let honey := things.filterMap (fun t =>
    match t with
    | .blockT id pos => if id = "honey" then some pos else none
    | .otherT => none)
  let honey_positions := honey.filter (fun hp =>
    let g := xy_to_grid hp.1 hp.2
    decide (|g.1 - bg.1| ≤ 10 ∨ |g.2 - bg.2| ≤ 10))
  if honey_positions = [] then playerPos
  else (List.insertionSort lex_le honey_positions).headD (0, 0)

/-- C2 evaluated on the failing input: a bee at pixel (0, 0) (grid cell
(0, 0)) and a single honey block at pixel (3200, 0) (grid cell (100, 0), grid
distance 100, far beyond the threshold of 10).  Because the source combines
the two per-axis offsets with `or`, the block's y-offset of 0 puts it "in
range" and the bee targets the honey block instead of the player at
(1000, 1000).  The final conjunct shows the lexicographic tie-break the claim
does describe correctly: among two in-range honey blocks the lexicographically
smallest position wins even when the other block is nearer. -/
theorem bee_target_or_range_bug :
    xy_to_grid 3200 0 = (100, 0) ∧
    xy_to_grid 0 0 = (0, 0) ∧
    bee_target [.blockT "honey" (3200, 0)] (0, 0) (1000, 1000) = (3200, 0) ∧
    bee_target [.blockT "honey" (96, 96), .blockT "honey" (32, 320)] (0, 0) (1000, 1000)
      = (32, 320) := by
  decide

/-- The velocity update of Sheep.step (app.py lines 127-136): `movement` is the
random.randint(-50, 50) draw; the velocity is reassigned only when
`self._steps % 50 == 0`. -/
def sheep_step_velocity (steps : ℕ) (v : ℚ × ℚ) (movement : ℚ) : ℚ × ℚ :=
  if steps % 50 = 0 then (v.1 + movement, -150) else v

/-- The velocity update of Bee.step (app.py lines 191-196): `zre` and `zim` are
the real and imaginary parts of the random point on the unit quarter-circle;
the velocity is reassigned only when `self._steps % 7 == 0`. -/
def bee_step_velocity (steps : ℕ) (v : ℚ × ℚ) (xdist ydist zre zim : ℚ) : ℚ × ℚ :=
  if steps % 7 = 0 then (v.1 + xdist + zre * BEE_X_SCALE, v.2 + ydist + zim - BEE_GRAVITY)
  else v

/-- C8: the species-specific velocity recomputation is gated by the step
counter: Sheep.step assigns a new velocity exactly on counters that are
multiples of 50 and Bee.step exactly on multiples of 7; on every other step the
species-specific update leaves the velocity unchanged. -/
theorem step_velocity_cadence_spec (steps : ℕ) (v : ℚ × ℚ)
    (movement xdist ydist zre zim : ℚ) :
    (steps % 50 ≠ 0 → sheep_step_velocity steps v movement = v) ∧
    (steps % 50 = 0 → sheep_step_velocity steps v movement = (v.1 + movement, -150)) ∧
    (steps % 7 ≠ 0 → bee_step_velocity steps v xdist ydist zre zim = v) ∧
    (steps % 7 = 0 → bee_step_velocity steps v xdist ydist zre zim
      = (v.1 + xdist + zre * BEE_X_SCALE, v.2 + ydist + zim - BEE_GRAVITY)) := by
  refine ⟨?_, ?_, ?_, ?_⟩ <;> intro h <;> simp [sheep_step_velocity, bee_step_velocity, h]

/-- Witness for C8 at counters 3 (neither a multiple of 50 nor of 7), 50 and 7. -/
theorem step_velocity_cadence_spec_witness :
    sheep_step_velocity 3 (1, 2) 5 = (1, 2) ∧
    bee_step_velocity 3 (1, 2) 4 6 1 1 = (1, 2) ∧
    sheep_step_velocity 50 (1, 2) 5 = (1 + 5, -150) ∧
    bee_step_velocity 7 (1, 2) 4 6 2 3 = (1 + 4 + 2 * BEE_X_SCALE, 2 + 6 + 3 - BEE_GRAVITY) := by
  refine ⟨(step_velocity_cadence_spec 3 (1, 2) 5 4 6 1 1).1 (by decide),
    (step_velocity_cadence_spec 3 (1, 2) 5 4 6 1 1).2.2.1 (by decide), ?_, ?_⟩
  · exact (step_velocity_cadence_spec 50 (1, 2) 5 4 6 1 1).2.1 rfl
  · exact (step_velocity_cadence_spec 7 (1, 2) 5 4 6 2 3).2.2.2 rfl

/-- An inventory stack: item id, quantity, and the item's maximum stack size. -/
structure InvStack where
  itemId : String
  quantity : ℕ
  maxStack : ℕ
deriving DecidableEq

/-- A dropped item in the world, as far as the pickup handler needs it: the id
and max stack size of the item it wraps. -/
structure DroppedItemM where
  itemId : String
  maxStack : ℕ
deriving DecidableEq

/-- Insertion of one item into a grid of optional stacks.  Modelled from the
spec: grid.py is absent from src; add_item scans the cells in order, merges the
item into the first compatible stack with room or starts a new stack in the
first empty cell, and fails (None here, False in Python) when no slot can
accept the item. -/
def grid_add_item : List (Option InvStack) → String → ℕ → Option (List (Option InvStack))
  | [], _, _ => none
  | none :: rest, id0, ms => some (some ⟨id0, 1, ms⟩ :: rest)
  | some s :: rest, id0, ms =>
    if s.itemId = id0 ∧ s.quantity < s.maxStack then
      some (some ⟨s.itemId, s.quantity + 1, s.maxStack⟩ :: rest)
    else (grid_add_item rest id0 ms).map (some s :: ·)

/-- The state the pickup handler touches: hotbar, inventory and the dropped
items currently in the world. -/
structure PickupState where
  hotbar : List (Option InvStack)
  inventory : List (Option InvStack)
  worldItems : List DroppedItemM
deriving DecidableEq

/-- Ninedraft._handle_player_collide_item (app.py lines 1044-1074): try the
hotbar, then the inventory; on either success remove the dropped item from the
world and return False (pass-through); when both are full return True (solid)
leaving the world untouched.  World.remove_item is modelled from the spec as
removal of the entity from the world set. -/
def handle_player_collide_item (st : PickupState) (di : DroppedItemM) :
    Bool × PickupState :=
  match grid_add_item st.hotbar di.itemId di.maxStack with
  | some hb => (false, { st with hotbar := hb, worldItems := st.worldItems.erase di })
  | none =>
    match grid_add_item st.inventory di.itemId di.maxStack with
    | some inv => (false, { st with inventory := inv, worldItems := st.worldItems.erase di })
    | none => (true, st)

/-- C3: the pickup handler returns pass-through (False) iff insertion into the
hotbar or, failing that, the inventory succeeds; on success the dropped item
is removed from the world; when both are full it returns solid (True) with the
state untouched and the item still in the world; and a hotbar success never
touches the inventory. -/
theorem pickup_handler_spec (st : PickupState) (di : DroppedItemM)
    (hmem : di ∈ st.worldItems) :
    ((handle_player_collide_item st di).1 = false ↔
      ((grid_add_item st.hotbar di.itemId di.maxStack).isSome = true ∨
        (grid_add_item st.inventory di.itemId di.maxStack).isSome = true)) ∧
    ((handle_player_collide_item st di).1 = false →
      (handle_player_collide_item st di).2.worldItems = st.worldItems.erase di) ∧
    ((grid_add_item st.hotbar di.itemId di.maxStack).isNone = true →
      (grid_add_item st.inventory di.itemId di.maxStack).isNone = true →
      handle_player_collide_item st di = (true, st) ∧
        di ∈ (handle_player_collide_item st di).2.worldItems) ∧
    ((grid_add_item st.hotbar di.itemId di.maxStack).isSome = true →
      (handle_player_collide_item st di).2.inventory = st.inventory) := by
  rcases hhb : grid_add_item st.hotbar di.itemId di.maxStack with _ | hb
  · rcases hinv : grid_add_item st.inventory di.itemId di.maxStack with _ | inv
    · refine ⟨?_, ?_, ?_, ?_⟩ <;>
        simp [handle_player_collide_item, hhb, hinv, hmem]
    · refine ⟨?_, ?_, ?_, ?_⟩ <;>
        simp [handle_player_collide_item, hhb, hinv]
  · refine ⟨?_, ?_, ?_, ?_⟩ <;>
      simp [handle_player_collide_item, hhb]

/-- Witness for C3 with a one-slot hotbar and one-slot inventory that are both
full of other items: the collision stays solid and the apple remains in the
world. -/
theorem pickup_handler_spec_witness :
    handle_player_collide_item
        ⟨[some ⟨"dirt", 64, 64⟩], [some ⟨"stone", 64, 64⟩], [⟨"apple", 64⟩]⟩ ⟨"apple", 64⟩
      = (true, ⟨[some ⟨"dirt", 64, 64⟩], [some ⟨"stone", 64, 64⟩], [⟨"apple", 64⟩]⟩) ∧
    (⟨"apple", 64⟩ : DroppedItemM) ∈
      (handle_player_collide_item
        ⟨[some ⟨"dirt", 64, 64⟩], [some ⟨"stone", 64, 64⟩], [⟨"apple", 64⟩]⟩
        ⟨"apple", 64⟩).2.worldItems :=
  (pickup_handler_spec
      ⟨[some ⟨"dirt", 64, 64⟩], [some ⟨"stone", 64, 64⟩], [⟨"apple", 64⟩]⟩
      ⟨"apple", 64⟩ (by decide)).2.2.1 (by decide) (by decide)

/-- Player status: `self._health` and `self._food`. -/
structure PlayerM where
  health : ℚ
  food : ℚ
deriving DecidableEq

/-- Player.change_health.  Modelled from the spec: player.py is absent from
src; a status change is clamped to the range 0 to the maximum of 20. -/
def PlayerM.change_health (p : PlayerM) (change : ℚ) : PlayerM :=
  { p with health := max 0 (min (p.health + change) 20) }

/-- Player.change_food.  Modelled from the spec: player.py is absent from src;
a status change is clamped to the range 0 to the maximum of 20. -/
def PlayerM.change_food (p : PlayerM) (change : ℚ) : PlayerM :=
  { p with food := max 0 (min (p.food + change) 20) }

/-- The food/health branch of Ninedraft.run_effect (app.py lines 962-976): for
a 2-tuple effect whose first element is "food" or "health", the stated
category is discarded and replaced by "health" when the player's food is 20
and by "food" otherwise, then `getattr(player, change_stat)(strength)` runs;
any other first element falls through to the KeyError at line 976. -/
def run_effect_stat (stat0 : String) (strength : ℚ) (p : PlayerM) : Except String PlayerM :=
  if stat0 = "food" ∨ stat0 = "health" then
    .ok (if p.food = 20 then p.change_health strength else p.change_food strength)
  else .error ("No effect defined for " ++ stat0)

/-- C10: for a ("food" or "health", strength) effect the stated category is
ignored: the strength is applied to health when the player's food equals 20
and to food otherwise, so the result never depends on which of the two
categories was stated. -/
theorem run_effect_stat_selection_spec (stat0 : String) (strength : ℚ) (p : PlayerM)
    (h : stat0 = "food" ∨ stat0 = "health") :
    run_effect_stat stat0 strength p =
      .ok (if p.food = 20 then p.change_health strength else p.change_food strength) ∧
    run_effect_stat stat0 strength p = run_effect_stat "health" strength p := by
  constructor
  · simp [run_effect_stat, h]
  · simp [run_effect_stat, h]

/-- Witness for C10: a "health" effect of strength 3 on a player with food 10
(below 20) is applied to food, raising it to 13 and leaving health at 20. -/
theorem run_effect_stat_selection_spec_witness :
    run_effect_stat "health" 3 ⟨20, 10⟩ = .ok ⟨20, 13⟩ := by
  have h := (run_effect_stat_selection_spec "health" 3 ⟨20, 10⟩ (Or.inr rfl)).1
  rw [h]
  norm_num [PlayerM.change_food]

/-- A drop payload as produced by Item.place(): a tuple of identifier strings
(for "item" and "block" categories) or an (effect-name, strength) pair as
FoodItem.place returns (app.py lines 300-302). -/
inductive PlacePayload where
  | ids (l : List String)
  | eff (stat : String) (strength : ℚ)
deriving DecidableEq

/-- State after the placement branch of _right_click: the selected hotbar
slot's stack (None once its quantity reached 0), the blocks the click added to
the world with their pixel position, the player status, and the raised error
when the action aborted.  In Python a raise unwinds the handler; every
mutation done before it persists, which is why the error case still reports
the mutated state. -/
structure RightClickResult where
  stackAfter : Option InvStack
  placedBlocks : List (String × ℤ × ℤ)
  player : PlayerM
  err : Option String
deriving DecidableEq

/-- Stack.subtract(1) followed by the zero-quantity removal at app.py lines
1006-1010.  Modelled from the spec: grid.py is absent from src; a stack is
removed from its slot when its quantity reaches zero. -/
def subtract_one (s : InvStack) : Option InvStack :=
  if s.quantity - 1 = 0 then none else some { s with quantity := s.quantity - 1 }

/-- The place-active-item branch of Ninedraft._right_click (app.py lines
995-1036), for a selected, non-empty stack: drops = item.place(); the stack is
decremented (and cleared at zero) BEFORE any drop validation; then empty drops
return; more than one drop raises NotImplementedError; a "block" drop is
placed when the target cell is empty and raises NotImplementedError otherwise;
an "effect" drop runs run_effect; an unknown category raises KeyError.
create_block for the placed id is elided; a "block" category with an effect
payload reports the create_block KeyError, and an "effect" category with an
identifier payload reports the run_effect KeyError, as the Python lookups
would. -/
def right_click_place (s : InvStack) (drops : List (String × PlacePayload))
    (existingBlock : Option String) (p : PlayerM) (x y : ℤ) : RightClickResult :=
  let stackAfter := subtract_one s
  if drops = [] then ⟨stackAfter, [], p, none⟩
  else if 1 < drops.length then
    ⟨stackAfter, [], p, some "NotImplementedError: Cannot handle dropping more than 1 thing"⟩
  else
    match drops.headD ("", .ids []) with
    | (cat, payload) =>
      if cat = "block" then
        match payload with
        | .ids l =>
          match existingBlock with
          | none => ⟨stackAfter, [(l.headD "", x, y)], p, none⟩
          | some _ =>
            ⟨stackAfter, [], p,
              some "NotImplementedError: Automatically placing a block nearby is not yet implemented"⟩
        | .eff _ _ => ⟨stackAfter, [], p, some "No block defined"⟩
      else if cat = "effect" then
        match payload with
        | .eff stat strength =>
          match run_effect_stat stat strength p with
          | .ok p2 => ⟨stackAfter, [], p2, none⟩
          | .error e => ⟨stackAfter, [], p, some e⟩
        | .ids _ => ⟨stackAfter, [], p, some "No effect defined"⟩
      else ⟨stackAfter, [], p, some ("Unknown drop category " ++ cat)⟩

/-- C6 as stated is false: a right-click placement that aborts with the
more-than-one-drop fatal error has already decremented the selected stack.
With a stack of 5 apples and a two-element drop payload the action errors, yet
the stack afterwards is not the original stack of quantity 5 (it holds 4). -/
theorem right_click_partial_mutation_counterexample :
    (right_click_place ⟨"apple", 5, 64⟩
        [("effect", .eff "food" 2), ("effect", .eff "food" 2)] none ⟨20, 10⟩ 0 0).err.isSome
      = true ∧
    ¬ (right_click_place ⟨"apple", 5, 64⟩
        [("effect", .eff "food" 2), ("effect", .eff "food" 2)] none ⟨20, 10⟩ 0 0).stackAfter
      = some ⟨"apple", 5, 64⟩ ∧
    (right_click_place ⟨"apple", 5, 64⟩
        [("effect", .eff "food" 2), ("effect", .eff "food" 2)] none ⟨20, 10⟩ 0 0).stackAfter
      = some ⟨"apple", 4, 64⟩ := by
  refine ⟨rfl, ?_, rfl⟩
  decide

/-- C6 amended: when the placement aborts with one of the two fatal errors (a
drop payload of more than one element, or an unrecognized drop category) the
world and the player are unchanged, but the selected hotbar stack has already
been decremented by 1 (and removed from its slot if its quantity reached 0)
before the error is raised. -/
theorem right_click_error_state_spec (s : InvStack) (drops : List (String × PlacePayload))
    (existingBlock : Option String) (p : PlayerM) (x y : ℤ)
    (h : 1 < drops.length ∨
      ∃ cat payload, drops = [(cat, payload)] ∧ cat ≠ "block" ∧ cat ≠ "effect") :
    (right_click_place s drops existingBlock p x y).err.isSome = true ∧
    (right_click_place s drops existingBlock p x y).placedBlocks = [] ∧
    (right_click_place s drops existingBlock p x y).player = p ∧
    (right_click_place s drops existingBlock p x y).stackAfter = subtract_one s := by
  rcases h with h | ⟨cat, payload, hd, hb, he⟩
  · have hne : drops ≠ [] := by
      intro h0
      rw [h0] at h
      simp at h
    simp [right_click_place, hne, h]
  · subst hd
    simp [right_click_place, hb, he]

/-- Witness for C6 at a dirt stack of 20 and a single drop of the unrecognized
category "banana": the action errors and the stack holds 19 afterwards. -/
theorem right_click_error_state_spec_witness :
    (right_click_place ⟨"dirt", 20, 64⟩ [("banana", .ids ["x"])] none ⟨20, 20⟩ 0 0).err.isSome
      = true ∧
    (right_click_place ⟨"dirt", 20, 64⟩ [("banana", .ids ["x"])] none ⟨20, 20⟩ 0 0).placedBlocks
      = [] ∧
    (right_click_place ⟨"dirt", 20, 64⟩ [("banana", .ids ["x"])] none ⟨20, 20⟩ 0 0).stackAfter
      = some ⟨"dirt", 19, 64⟩ := by
  have h := right_click_error_state_spec ⟨"dirt", 20, 64⟩ [("banana", .ids ["x"])] none
    ⟨20, 20⟩ 0 0 (Or.inr ⟨"banana", .ids ["x"], rfl, by decide, by decide⟩)
  exact ⟨h.1, h.2.1, h.2.2.2.trans (by decide)⟩

end Ninedraft
